import Mathlib

/-
Verification of the Agilent oscilloscope driver core
(pylablib/devices/Agilent/base.py).

The driver methods interact with the instrument through the SCPI
primitives `write` / `ask` / binary reads, which the spec treats as
external collaborators.  We embed each method as a computation in a
small interaction monad `M`: the device is an oracle (`Resp`) that maps
the interaction history and a query to a reply, and the history of
issued commands/queries is threaded through as a log.  Python dynamic
values relevant to the embedded code (the `DataFormat.size` /
`DataFormat.byteorder` attributes, which hold either an int, a str, or
`None`) are modelled by `PyVal`; Python exceptions by `PyErr`; floats by
`ℚ` (the code under verification performs only affine arithmetic and
decimal parsing, which are exact).
-/

/-- Dynamic Python value: an int, a str, or `None`.  Used for the
`DataFormat` attributes that the source compares across types. -/
inductive PyVal where
  | pint : Int → PyVal
  | pstr : String → PyVal
  | pnone : PyVal
deriving DecidableEq

/-- Python `==` on dynamic values: equal only within the same type
(an int never equals a str, as in `fmt.size=="1"` with an int size). -/
def pyEq : PyVal → PyVal → Bool
  | .pint a, .pint b => a == b
  | .pstr a, .pstr b => a == b
  | .pnone, .pnone => true
  | _, _ => false

/-- Occurrence of `needle` somewhere in `hay` (character lists). -/
def inStrAux (needle : List Char) : List Char → Bool
  | [] => needle.isEmpty
  | c :: rest => needle.isPrefixOf (c :: rest) || inStrAux needle rest

/-- Python `needle in hay` substring test (used for `fmt.kind not in "iu"`). -/
def pyInStr (needle hay : String) : Bool :=
  inStrAux needle.data hay.data

/-- Strip leading and trailing whitespace (Python `str.strip`, as done
by `int()` / `float()`). -/
def trimChars (cs : List Char) : List Char :=
  ((cs.dropWhile Char.isWhitespace).reverse.dropWhile Char.isWhitespace).reverse

/-- Upper-case a string (`str.upper` on the ASCII replies involved). -/
def upperStr (s : String) : String :=
  String.mk (s.data.map Char.toUpper)

/-- `s.startswith(pre)`. -/
def startsWithStr (s pre : String) : Bool :=
  pre.data.isPrefixOf s.data

/-- Split a character list on a separator character, keeping empty
pieces (Python `str.split(sep)` with a one-character separator). -/
def splitOnChar (sep : Char) : List Char → List (List Char)
  | [] => [[]]
  | c :: rest =>
    let r := splitOnChar sep rest
    if c = sep then [] :: r
    else
      match r with
      | h :: t => (c :: h) :: t
      | [] => [[c]]

/-- `reply.split(";")` from `get_wfmpre`. -/
def splitFields (s : String) : List String :=
  (splitOnChar (';') s.data).map String.mk

/-- Value of a digit string, most significant first. -/
def digitsVal (cs : List Char) : Nat :=
  cs.foldl (fun n c => n * 10 + (c.toNat - 48)) 0

/-- Nonempty and all decimal digits. -/
def allDigits (cs : List Char) : Bool :=
  !cs.isEmpty && cs.all (fun c => c.isDigit)

/-- Python `int(s)`: optional surrounding whitespace, optional sign,
nonempty digit run; anything else raises `ValueError` (`none` here). -/
def pyInt (s : String) : Option Int :=
  match trimChars s.data with
  | [] => none
  | c :: rest =>
    if c = '-' then
      if allDigits rest then some (-(digitsVal rest : Int)) else none
    else if c = '+' then
      if allDigits rest then some ((digitsVal rest : Int)) else none
    else if allDigits (c :: rest) then some ((digitsVal (c :: rest) : Int)) else none

/-- Split a character list at the first `e`/`E` (exponent marker). -/
def splitOnExp : List Char → Option (List Char × List Char)
  | [] => none
  | c :: rest =>
    if c = 'e' ∨ c = 'E' then some ([], rest)
    else match splitOnExp rest with
      | some (a, b) => some (c :: a, b)
      | none => none

/-- Split a character list at the first `.`. -/
def splitOnDot : List Char → Option (List Char × List Char)
  | [] => none
  | c :: rest =>
    if c = '.' then some ([], rest)
    else match splitOnDot rest with
      | some (a, b) => some (c :: a, b)
      | none => none

/-- Unsigned decimal mantissa: `digits`, `digits.digits`, `digits.`, or
`.digits`, returned as an exact numerator/denominator pair
(`a + b/10^k` written as `(a*10^k + b) / 10^k`). -/
def parseUMant (cs : List Char) : Option (Int × Nat) :=
  match splitOnDot cs with
  | none => if allDigits cs then some (((digitsVal cs : Nat) : Int), 1) else none
  | some (a, b) =>
    if (allDigits a || a.isEmpty) && (allDigits b || b.isEmpty) && !(a.isEmpty && b.isEmpty) then
      some (((digitsVal a * 10 ^ b.length + digitsVal b : Nat) : Int), 10 ^ b.length)
    else none

/-- Signed decimal mantissa (numerator/denominator pair). -/
def parseMant (cs : List Char) : Option (Int × Nat) :=
  match cs with
  | [] => none
  | c :: rest =>
    if c = '-' then (parseUMant rest).map (fun p => (-p.1, p.2))
    else if c = '+' then parseUMant rest
    else parseUMant cs

/-- Signed digit run (exponent part). -/
def parseSignedInt (cs : List Char) : Option Int :=
  match cs with
  | [] => none
  | c :: rest =>
    if c = '-' then
      if allDigits rest then some (-(digitsVal rest : Int)) else none
    else if c = '+' then
      if allDigits rest then some ((digitsVal rest : Int)) else none
    else if allDigits (c :: rest) then some ((digitsVal (c :: rest) : Int)) else none

/-- Python `float(s)` on the decimal notation the device uses:
optional whitespace, sign, mantissa with optional fraction, optional
`e`/`E` integer exponent; the exact rational `mantissa * 10^exponent`
is assembled with `mkRat` from integer arithmetic.  (`inf`/`nan` never
occur in these replies.) -/
def pyFloat (s : String) : Option ℚ :=
  let cs := trimChars s.data
  let (mant, ex) :=
    match splitOnExp cs with
    | some (a, b) => (a, some b)
    | none => (cs, none)
  match parseMant mant with
  | none => none
  | some p =>
    match ex with
    | none => some (mkRat p.1 p.2)
    | some b =>
      match parseSignedInt b with
      | none => none
      | some e =>
        some (if 0 ≤ e then mkRat (p.1 * ((10 ^ e.toNat : Nat) : Int)) p.2
              else mkRat p.1 (p.2 * 10 ^ (-e).toNat))

/-- Python list indexing `l[i]` with negative wrap-around; `none` is an
`IndexError`. -/
def pyIndex (l : List String) (i : Int) : Option String :=
  let j : Int := if i < 0 then (l.length : Int) + i else i
  if 0 ≤ j ∧ j < (l.length : Int) then l[j.toNat]? else none

/-- Field access `data[i]` on a reply that has already passed the length
check (default never used there). -/
def dget (data : List String) (i : Nat) : String :=
  data.getD i ""

/-- Exceptions raised by the embedded code.  Constructors carry the
values that the source interpolates into the exception message. -/
inductive PyErr where
  /-- `ValueError("format ... isn't supported")` from `set_data_format`. -/
  | valueError : PyVal → String → PyVal → PyErr
  /-- `AgilentError("incomplete preamble: ...")` from `_build_wfmpre`,
  carrying the semicolon-split reply fields that the source formats into
  the message. -/
  | incompletePreamble : List String → PyErr
  /-- `AgilentError("received data length ... is not equal to the number
  of points ...")` from `_read_sweep_fast`, carrying both lengths. -/
  | dataLengthMismatch : Nat → Int → PyErr
  /-- `ValueError` from `int()` / `float()` on a non-numeric field. -/
  | parseError : String → PyErr
  /-- `IndexError` from tuple indexing with an out-of-range code. -/
  | indexError : Int → PyErr
  /-- Invalid numpy-style format descriptor in `DataFormat.from_desc`. -/
  | badDesc : String → PyErr
deriving DecidableEq

/-- Device oracle: replies as a function of the interaction history so
far (every command and query issued) and the query text.  `askS` is a
raw string reply, `askQ` a float reply, `askB` a boolean reply;
`readRaw` / `readBin` give the decoded element sequence delivered by the
transport for an ASCII / binary data transfer. -/
structure Resp where
  askS : List String → String → String
  askQ : List String → String → ℚ
  askB : List String → String → Bool
  readRaw : List String → List ℚ
  readBin : List String → List ℚ

/-- Interaction monad: given the oracle and the history, a computation
produces a result (or a raised exception) and the extended history. -/
@[reducible] def M (α : Type) : Type :=
  Resp → List String → Except PyErr α × List String

def M.run {α : Type} (x : M α) (r : Resp) (log : List String) :
    Except PyErr α × List String :=
  x r log

def M.mpure {α : Type} (a : α) : M α := fun _ log => (.ok a, log)

def M.mbind {α β : Type} (x : M α) (f : α → M β) : M β := fun r log =>
  match x r log with
  | (.ok a, log₂) => f a r log₂
  | (.error e, log₂) => (.error e, log₂)

instance : Monad M where
  pure := M.mpure
  bind := M.mbind

/-- `self.write(cmd)`: append the command to the history. -/
def wr (c : String) : M Unit := fun _ log => (.ok (), log ++ [c])

/-- `self.ask(q)` returning a raw string. -/
def askS (q : String) : M String := fun r log =>
  (.ok (r.askS (log ++ [q]) q), log ++ [q])

/-- `self.ask(q, "float")`. -/
def askQ (q : String) : M ℚ := fun r log =>
  (.ok (r.askQ (log ++ [q]) q), log ++ [q])

/-- `self.ask(q, "bool")`. -/
def askB (q : String) : M Bool := fun r log =>
  (.ok (r.askB (log ++ [q]) q), log ++ [q])

/-- `self.read("raw")` + ASCII parsing of the payload (transport
collaborator). -/
def readRaw : M (List ℚ) := fun r log => (.ok (r.readRaw log), log)

/-- `self.read_binary_array_data()` + binary decoding of the payload
(transport collaborator). -/
def readBin : M (List ℚ) := fun r log => (.ok (r.readBin log), log)

/-- `raise e`. -/
def thr {α : Type} (e : PyErr) : M α := fun _ log => (.error e, log)

/-- Lift a pure fallible step (e.g. `int(...)`) into the monad. -/
def liftOpt {α : Type} (x : Option α) (e : PyErr) : M α := fun _ log =>
  (match x with
   | some a => .ok a
   | none => .error e, log)

/-- Lift an `Except` result (e.g. `DataFormat.from_desc`). -/
def liftExc {α : Type} (x : Except PyErr α) : M α := fun _ log => (x, log)


/-
Data-format descriptors.  The class `data_format.DataFormat` lives in
pylablib core (core/devio/data_format.py), which is not under src/; per
the spec it is the logical descriptor {encoding ascii|binary, elementKind
signed|unsigned, elementSize (a number of bytes), byteOrder little|big},
built from a numpy-style string such as `"<u2"` or from `"ascii"`.
-/

/-- Modelled from the spec: the core `data_format.DataFormat` descriptor
(core/devio/data_format.py is not in src/).  `size` holds the element
size in bytes as a Python int (or `None` for ASCII), `kind` the numpy
kind character (`"i"`, `"u"`, `"f"`, ...) or `"ascii"`, `byteorder` the
numpy order character `"<"` / `">"` (or `None` for ASCII); this mirrors
the constructor calls `DataFormat(None,"ascii",None)` and
`DataFormat(size,kind,border)` visible in src. -/
structure DataFormat where
  size : PyVal
  kind : String
  byteorder : PyVal
deriving DecidableEq

/-- `DataFormat.is_ascii`: the kind is the string `"ascii"`. -/
def DataFormat.is_ascii (f : DataFormat) : Bool := f.kind == "ascii"

/-- Modelled from the spec: `DataFormat.from_desc` on a string
descriptor (core module, not in src/): `"ascii"` gives the ASCII
descriptor; a numpy-style string (optional order character, kind
character, size digits) gives a binary descriptor with an integer size,
defaulting to little-endian when no order character is given. -/
def DataFormat.from_desc (desc : String) : Except PyErr DataFormat :=
  if desc = "ascii" then .ok ⟨.pnone, "ascii", .pnone⟩
  else
    let cs := desc.data
    let p : String × List Char :=
      match cs with
      | c :: rest =>
        if c = '<' ∨ c = '>' ∨ c = '=' ∨ c = '|' then
          (if c = '>' then ">" else "<", rest)
        else ("<", cs)
      | [] => ("<", [])
    match p.2 with
    | k :: szs =>
      if (k = 'i' ∨ k = 'u' ∨ k = 'f') ∧ allDigits szs then
        .ok ⟨.pint ((digitsVal szs : Int)), String.mk [k], .pstr p.1⟩
      else .error (.badDesc desc)
    | [] => .error (.badDesc desc)

/-- Class attribute `default_data_fmt` (set in `__init__`). -/
def default_data_fmt : String := "<i1"

/-- Class attribute `_trig_comm`. -/
def trig_comm : String := "TRIG"

/-- Class attribute `_wfmpre_comm`. -/
def wfmpre_comm : String := "WAV:PRE"

/-- Class attribute `_hor_pos_mode` (the base class and both concrete
subclasses use `"real_center"`). -/
def hor_pos_mode : String := "real_center"

/-- Class attribute `_probe_attenuation_comm`. -/
def probe_attenuation_comm : Option (String × String) := some ("PROB", "att")

/-- `get_data_format(form)`: when `form` is absent or empty, query
`:WAV:FORM?` and upper-case the reply; ASCII replies give the ASCII
descriptor with no further queries; otherwise the size is 2 for `WORD`
else 1, signedness comes from `WAV:UNS?`, and the order character from
`:WAV:BYT?` (`LSBF` mapped to `">"`, anything else to `"<"`). -/
def get_data_format (form? : Option String) : M DataFormat := do
  let form ←
    match form? with
    | none => do
      let f ← askS ":WAV:FORM?"
      pure (upperStr f)
    | some f =>
      if f = "" then do
        let g ← askS ":WAV:FORM?"
        pure (upperStr g)
      else pure f
  if startsWithStr form "ASC" then
    pure ⟨.pnone, "ascii", .pnone⟩
  else do
    let size : Int := if startsWithStr form "WORD" then 2 else 1
    let uns ← askB "WAV:UNS?"
    let kind := if uns then "u" else "i"
    let borderR ← askS ":WAV:BYT?"
    let border := if upperStr borderR = "LSBF" then ">" else "<"
    pure ⟨.pint size, kind, .pstr border⟩

/-- `set_data_format(fmt)`: resolve `"default"`, build the descriptor,
write the format commands (ASCII, or signedness + byte count + byte
order for binary), rejecting unsupported binary combinations with a
`ValueError` before any write; finally re-query and return the
effective format.  The comparisons `fmt.size=="1"` and
`fmt.byteorder==">"` are the dynamic Python comparisons from the
source, taken verbatim. -/
def set_data_format (fmt0 : String) : M DataFormat := do
  let fmtd := if fmt0 = "default" then default_data_fmt else fmt0
  let fmt ← liftExc (DataFormat.from_desc fmtd)
  if fmt.is_ascii then
    wr ":WAV:FORM ASCII"
  else
    if !(pyInStr fmt.kind "iu") || !(pyEq fmt.size (.pint 1) || pyEq fmt.size (.pint 2)) then
      thr (.valueError fmt.size fmt.kind fmt.byteorder)
    else do
      if fmt.kind = "u" then wr ":WAV:UNS 1" else wr ":WAV:UNS 0"
      if pyEq fmt.size (.pstr "1") then
        wr ":WAV:FORM BYTE"
      else do
        wr ":WAV:FORM WORD"
        if pyEq fmt.byteorder (.pstr ">") then wr ":WAV:BYT LSBF" else wr ":WAV:BYT MSBF"
  get_data_format none

/-- Preamble record built by `_build_wfmpre` (the `wfmpre` dict keys,
in source order). -/
structure Wfmpre where
  fmt : DataFormat
  type : String
  pts : Int
  count : Int
  xzero : ℚ
  xincr : ℚ
  ptoff : Int
  ymult : ℚ
  yzero : ℚ
  yoff : ℚ
deriving DecidableEq

/-- The 4-entry format-code table `('BYTE','WORD','','ASCII')`. -/
def fmt_table : List String := ["BYTE", "WORD", "", "ASCII"]

/-- The 4-entry acquisition-type table `('NORM','PEAK','AVER','HRES')`. -/
def type_table : List String := ["NORM", "PEAK", "AVER", "HRES"]

/-- `_build_wfmpre(data)`: reject replies with fewer than 10 fields;
map field 0 through the format table and `get_data_format`, field 1
through the type table, and assign the remaining fields by fixed
position (`pts`=2, `count`=3, `xzero`=5, `xincr`=4, `ptoff`=6,
`ymult`=7, `yzero`=8, `yoff`=9), parsed as int or float. -/
def _build_wfmpre (data : List String) : M Wfmpre := do
  if data.length < 10 then thr (.incompletePreamble data)
  else do
    let fc ← liftOpt (pyInt (dget data 0)) (.parseError (dget data 0))
    let fmtName ← liftOpt (pyIndex fmt_table fc) (.indexError fc)
    let fmt ← get_data_format (some fmtName)
    let tc ← liftOpt (pyInt (dget data 1)) (.parseError (dget data 1))
    let typeName ← liftOpt (pyIndex type_table tc) (.indexError tc)
    let pts ← liftOpt (pyInt (dget data 2)) (.parseError (dget data 2))
    let count ← liftOpt (pyInt (dget data 3)) (.parseError (dget data 3))
    let xzero ← liftOpt (pyFloat (dget data 5)) (.parseError (dget data 5))
    let xincr ← liftOpt (pyFloat (dget data 4)) (.parseError (dget data 4))
    let ptoff ← liftOpt (pyInt (dget data 6)) (.parseError (dget data 6))
    let ymult ← liftOpt (pyFloat (dget data 7)) (.parseError (dget data 7))
    let yzero ← liftOpt (pyFloat (dget data 8)) (.parseError (dget data 8))
    let yoff ← liftOpt (pyFloat (dget data 9)) (.parseError (dget data 9))
    pure ⟨fmt, typeName, pts, count, xzero, xincr, ptoff, ymult, yzero, yoff⟩

/-- `get_wfmpre()` on the currently selected channel with
`enable=False` (the path used by `_read_sweep_fast`): ask the preamble
query, split the reply on `;`, and build the preamble. -/
def get_wfmpre : M Wfmpre := do
  let reply ← askS (":" ++ wfmpre_comm ++ "?")
  _build_wfmpre (splitFields reply)

/-- `_scale_data(data, wfmpre)`: `x[i] = (i - ptoff)*xincr + xzero`;
`y` is the data itself for ASCII (the elements delivered by the
transport are the already-parsed floats, so `float(x)` is the
identity), or `(raw - yoff)*ymult + yzero` for binary; the result
pairs x with y columnwise. -/
def _scale_data (data : List ℚ) (wfmpre : Wfmpre) : List (ℚ × ℚ) :=
  let xpts := (List.range data.length).map
    (fun i : ℕ => ((i : ℚ) - (wfmpre.ptoff : ℚ)) * wfmpre.xincr + wfmpre.xzero)
  let ypts :=
    if wfmpre.fmt.is_ascii then data
    else data.map (fun d => (d - wfmpre.yoff) * wfmpre.ymult + wfmpre.yzero)
  xpts.zip ypts

/-- `_read_sweep_fast(channel, wfmpre)`: select the source, take the
supplied preamble or fetch one (`enable=False`), request the data, read
and decode it per the preamble format, reject a length mismatch with an
`AgilentError` carrying both lengths, and return the scaled sweep. -/
def _read_sweep_fast (channel : String) (wfmpre? : Option Wfmpre) :
    M (List (ℚ × ℚ)) := do
  wr (":WAV:SOUR " ++ channel)
  let wfmpre ←
    match wfmpre? with
    | some w => pure w
    | none => get_wfmpre
  wr "WAV:DATA?"
  let trace ← if wfmpre.fmt.is_ascii then readRaw else readBin
  if (trace.length : Int) ≠ wfmpre.pts then
    thr (.dataLengthMismatch trace.length wfmpre.pts)
  else
    pure (_scale_data trace wfmpre)

/-- `is_grabbing()`: ask `:ACQ:COMP?` and return whether the reply
differs from `"100"`. -/
def is_grabbing : M Bool := do
  let r ← askS ":ACQ:COMP?"
  pure (r != "100")

/-
Trigger / horizontal / vertical / channel settings.  Each setter writes
the command and then returns the value of a fresh query (the source
returns `self.get_...()` or `self._wip.get_...(channel)`).  The
`channel` argument below is the wire token (e.g. `"CHAN1"`) produced by
the parameter-registry decorator, which is an external collaborator.
-/

/-- `get_trigger_level()`: ask the trigger level as a float. -/
def get_trigger_level : M ℚ := askQ (trig_comm ++ ":LEVEL?")

/-- `set_trigger_level(level)`: write the level, then re-query. -/
def set_trigger_level (level : ℚ) : M ℚ := do
  wr (trig_comm ++ ":LEVEL " ++ toString level)
  get_trigger_level

/-- `get_horizontal_span()`: scale per division times 10 divisions. -/
def get_horizontal_span : M ℚ := do
  let v ← askQ ":TIM:SCAL?"
  pure (v * 10)

/-- `set_horizontal_span(span)`: write span/10, then re-query. -/
def set_horizontal_span (span : ℚ) : M ℚ := do
  wr ("TIM:SCAL " ++ toString (span / 10))
  get_horizontal_span

/-- `_to_horizontal_pos(center_time)`: identity in `"real_center"`
mode; in `"frac"` mode, convert to a percentage of the span clamped to
[0, 100] (this queries the span). -/
def _to_horizontal_pos (mode : String) (center_time : ℚ) : M ℚ :=
  if mode = "real_center" then pure center_time
  else do
    let span ← get_horizontal_span
    let rel := center_time / span * 100 + 50
    pure (min (max rel 0) 100)

/-- `_from_horizontal_pos(hor_pos)`: inverse conversion. -/
def _from_horizontal_pos (mode : String) (hor_pos : ℚ) : M ℚ :=
  if mode = "real_center" then pure hor_pos
  else do
    let span ← get_horizontal_span
    pure ((hor_pos / 100 - 1 / 2) * span)

/-- `get_horizontal_offset()`. -/
def get_horizontal_offset (mode : String) : M ℚ := do
  let p ← askQ ":TIM:POS?"
  _from_horizontal_pos mode p

/-- `set_horizontal_offset(offset)`: convert, write, then re-query. -/
def set_horizontal_offset (mode : String) (offset : ℚ) : M ℚ := do
  let p ← _to_horizontal_pos mode offset
  wr (":TIM:POS " ++ toString p)
  get_horizontal_offset mode

/-- `get_vertical_span(channel)`. -/
def get_vertical_span (channel : String) : M ℚ := do
  let v ← askQ (":" ++ channel ++ ":SCAL?")
  pure (v * 10)

/-- `set_vertical_span(channel, span)`: write span/10, then re-query. -/
def set_vertical_span (channel : String) (span : ℚ) : M ℚ := do
  wr (":" ++ channel ++ ":SCAL " ++ toString (span / 10))
  get_vertical_span channel

/-- `get_vertical_position(channel)` (the source spells the query with
a doubled colon, `":{}::OFFS?"`; kept verbatim). -/
def get_vertical_position (channel : String) : M ℚ :=
  askQ (":" ++ channel ++ "::OFFS?")

/-- `set_vertical_position(channel, position)`. -/
def set_vertical_position (channel : String) (position : ℚ) : M ℚ := do
  wr (":" ++ channel ++ "::OFFS " ++ toString position)
  get_vertical_position channel

/-- `is_channel_enabled(channel)`. -/
def is_channel_enabled (channel : String) : M Bool :=
  askB (":" ++ channel ++ ":DISP?")

/-- `enable_channel(channel, enabled)`: write the display flag (the
SCPI layer encodes booleans as 0/1), then re-query. -/
def enable_channel (channel : String) (enabled : Bool) : M Bool := do
  wr (":" ++ channel ++ ":DISP " ++ (if enabled then "1" else "0"))
  is_channel_enabled channel

/-- `get_coupling(channel)` (raw token; the enum conversion is done by
the parameter-registry decorator outside this core). -/
def get_coupling (channel : String) : M String :=
  askS (":" ++ channel ++ ":COUP?")

/-- `set_coupling(channel, coupling)`. -/
def set_coupling (channel : String) (coupling : String) : M String := do
  wr (":" ++ channel ++ ":COUP " ++ coupling)
  get_coupling channel

/-- `get_probe_attenuation(channel)`: 1 when the model has no probe
command; otherwise the queried value, inverted when the command kind is
a gain rather than an attenuation. -/
def get_probe_attenuation (channel : String) : M ℚ :=
  match probe_attenuation_comm with
  | none => pure 1
  | some (comm, kind) => do
    let v ← askQ (":" ++ channel ++ ":" ++ comm ++ "?")
    pure (if kind = "att" then v else 1 / v)

/-- `set_probe_attenuation(channel, attenuation)`: write (inverting for
gain-style commands), then re-query. -/
def set_probe_attenuation (channel : String) (attenuation : ℚ) : M ℚ := do
  match probe_attenuation_comm with
  | none => pure ()
  | some (comm, kind) =>
    wr (":" ++ channel ++ ":" ++ comm ++ " "
      ++ toString (if kind = "att" then attenuation else 1 / attenuation))
  get_probe_attenuation channel

/-
Channel multiplexing.  The fan-out engine `general.muxcall` lives in
core/utils/general.py, which is not under src/; the src-side decorator
`muxchannel` supplies it the special handler for `"all"`, which returns
`list(self._main_channels_idx)` (main channels only, never the aux
names).
-/

/-- Channel registry created in `__init__`: the main (analog) channel
ids and the fixed auxiliary channel names (`_aux_channels`). -/
structure ChannelRegistry where
  mains : List Int
  aux : List String

/-- The `"all"` handler from the src decorator `muxchannel`: the list of
registered main-channel ids. -/
def all_channels_handler (reg : ChannelRegistry) : List Int := reg.mains

/-- Channel argument of a multiplexed call: the literal `"all"`, or an
explicit list of ids. -/
inductive ChannelArg where
  | all : ChannelArg
  | explicitList : List Int → ChannelArg

/-- Modelled from the spec: `general.muxcall` (core/utils/general.py is
not in src/).  Per spec section 4.1, `"all"` expands through the
special handler to the registered main-channel ids, and an explicit
list invokes the underlying operation once per id in the given order;
the keyed view pairs each channel id with its result. -/
def muxcall {α : Type} (reg : ChannelRegistry) (op : Int → α) :
    ChannelArg → List (Int × α)
  | .all => (all_channels_handler reg).map (fun c => (c, op c))
  | .explicitList l => l.map (fun c => (c, op c))

/-
Concrete oracles used by the closed instances below.
-/

/-- Oracle replying with constant defaults everywhere. -/
def constResp : Resp :=
  ⟨fun _ _ => "", fun _ _ => 0, fun _ _ => false, fun _ => [], fun _ => []⟩

/-- Oracle whose boolean replies (`WAV:UNS?`) are `true`; otherwise as
`constResp`. -/
def respUns : Resp :=
  { constResp with askB := fun _ _ => true }

/-- Oracle replying `s` to every string query. -/
def respComp (s : String) : Resp :=
  { constResp with askS := fun _ _ => s }

/-- Oracle whose float replies are the constant 42. -/
def echoTestResp : Resp :=
  { constResp with askQ := fun _ _ => 42 }

/-- Oracle whose binary reads deliver 900 zero samples. -/
def resp900 : Resp :=
  { constResp with readBin := fun _ => List.replicate 900 0 }

/-- Synthetic preamble from the C1 test vector: pointOffset 0,
xIncrement 2e-9, xZero 0, yMultiplier 0.02, yZero 0, yOffset 128,
binary format. -/
def preC1 : Wfmpre :=
  ⟨⟨.pint 1, "i", .pstr "<"⟩, "NORM", 3, 1, 0, 1 / 500000000, 0, 2 / 100, 0, 128⟩

/-- Preamble declaring a point count of 1000 (binary format), for the
C4 mismatch instance. -/
def preC4 : Wfmpre :=
  ⟨⟨.pint 1, "i", .pstr "<"⟩, "NORM", 1000, 1, 0, 1, 0, 1, 0, 0⟩

/-- The 10 fields of the literal preamble reply
`"1;0;1000;1;1e-6;0;-500;0.01;0;0"`, split on `;`. -/
def preambleFields : List String :=
  ["1", "0", "1000", "1", "1e-6", "0", "-500", "0.01", "0", "0"]

/-- A 10-field preamble reply whose format code 3 denotes ASCII. -/
def asciiFields : List String :=
  ["3", "0", "3", "1", "1", "0", "0", "1", "0", "0"]

/-
Run lemmas for the interaction monad, used to unfold the embedded
methods in the proofs below.
-/

@[simp] theorem M.run_bind {α β : Type} (x : M α) (f : α → M β) (r : Resp)
    (log : List String) :
    M.run (x >>= f) r log =
      match M.run x r log with
      | (.ok a, log₂) => M.run (f a) r log₂
      | (.error e, log₂) => (.error e, log₂) := rfl

@[simp] theorem M.run_pure {α : Type} (a : α) (r : Resp) (log : List String) :
    M.run (pure a : M α) r log = (.ok a, log) := rfl

@[simp] theorem M.run_wr (c : String) (r : Resp) (log : List String) :
    M.run (wr c) r log = (.ok (), log ++ [c]) := rfl

@[simp] theorem M.run_askS (q : String) (r : Resp) (log : List String) :
    M.run (askS q) r log = (.ok (r.askS (log ++ [q]) q), log ++ [q]) := rfl

@[simp] theorem M.run_askQ (q : String) (r : Resp) (log : List String) :
    M.run (askQ q) r log = (.ok (r.askQ (log ++ [q]) q), log ++ [q]) := rfl

@[simp] theorem M.run_askB (q : String) (r : Resp) (log : List String) :
    M.run (askB q) r log = (.ok (r.askB (log ++ [q]) q), log ++ [q]) := rfl

@[simp] theorem M.run_readRaw (r : Resp) (log : List String) :
    M.run readRaw r log = (.ok (r.readRaw log), log) := rfl

@[simp] theorem M.run_readBin (r : Resp) (log : List String) :
    M.run readBin r log = (.ok (r.readBin log), log) := rfl

@[simp] theorem M.run_thr {α : Type} (e : PyErr) (r : Resp) (log : List String) :
    M.run (thr e : M α) r log = (.error e, log) := rfl

@[simp] theorem M.run_liftOpt {α : Type} (x : Option α) (e : PyErr) (r : Resp)
    (log : List String) :
    M.run (liftOpt x e) r log =
      (match x with
       | some a => .ok a
       | none => .error e, log) := rfl

@[simp] theorem M.run_liftExc {α : Type} (x : Except PyErr α) (r : Resp)
    (log : List String) :
    M.run (liftExc x) r log = (x, log) := rfl

@[simp] theorem M.run_ite {α : Type} (c : Prop) [Decidable c] (x y : M α)
    (r : Resp) (log : List String) :
    M.run (if c then x else y) r log =
      if c then M.run x r log else M.run y r log := by
  split <;> rfl

theorem M.run_bind_liftOpt {α β : Type} (x : Option α) (e : PyErr)
    (f : α → M β) (r : Resp) (log : List String) :
    M.run (liftOpt x e >>= f) r log =
      match x with
      | some a => M.run (f a) r log
      | none => (.error e, log) := by
  cases x <;> rfl

theorem M.run_bind_gdf_ascii {β : Type} (k : DataFormat → M β) (r : Resp)
    (log : List String) :
    M.run (get_data_format (some "ASCII") >>= k) r log =
      M.run (k ⟨.pnone, "ascii", .pnone⟩) r log := rfl
/-- Claim C3: a preamble reply that splits into fewer than 10 fields
makes `_build_wfmpre` raise the driver error carrying the offending
reply fields, return no preamble, and touch the device log not at all. -/
theorem build_wfmpre_short_reply (data : List String) (r : Resp)
    (log : List String) (h : data.length < 10) :
    M.run (_build_wfmpre data) r log = (.error (.incompletePreamble data), log) := by
  simp [_build_wfmpre, M.run, thr, h]

theorem build_wfmpre_short_reply_witness :
    M.run (_build_wfmpre ["1", "0"]) constResp []
      = (.error (.incompletePreamble ["1", "0"]), []) :=
  build_wfmpre_short_reply ["1", "0"] constResp [] (by decide)

/-- Claim C9, counterexample: `is_grabbing` does not report a 0..100
completion count — all in-progress replies (e.g. counts 37 and 64)
collapse to the same boolean `true`, and a stopped instrument (reply
`"100"`) yields the boolean `false`, not the number 100. -/
theorem is_grabbing_collapses_counts :
    M.run is_grabbing (respComp "37") [] = M.run is_grabbing (respComp "64") []
    ∧ (M.run is_grabbing (respComp "37") []).1 = .ok true
    ∧ (M.run is_grabbing (respComp "100") []).1 = .ok false :=
  ⟨rfl, rfl, rfl⟩

/-- Claim C9, amended: `is_grabbing` reports a boolean in-progress flag,
true exactly when the raw `:ACQ:COMP?` reply differs from `"100"`
(recording or armed), false when it equals `"100"` (stopped). -/
theorem is_grabbing_boolean_flag :
    ∀ (r : Resp) (log : List String),
      M.run is_grabbing r log =
        (.ok (r.askS (log ++ [":ACQ:COMP?"]) ":ACQ:COMP?" != "100"),
         log ++ [":ACQ:COMP?"]) :=
  fun _ _ => rfl

/-- Claim C10: every set-style operation returns the value obtained by
re-querying the device after the write — the run of the setter equals
the run of the corresponding getter in the post-write state, for every
device oracle — and (final conjunct) the returned value is the device
reply, not an echo of the argument: a device answering 42 makes
`set_trigger_level 7` return 42. -/
theorem setters_return_requery :
    (∀ (r : Resp) (log : List String) (level : ℚ),
      M.run (set_trigger_level level) r log =
        M.run get_trigger_level r (log ++ [trig_comm ++ ":LEVEL " ++ toString level]))
    ∧ (∀ (r : Resp) (log : List String) (span : ℚ),
      M.run (set_horizontal_span span) r log =
        M.run get_horizontal_span r (log ++ ["TIM:SCAL " ++ toString (span / 10)]))
    ∧ (∀ (r : Resp) (log : List String) (ch : String) (span : ℚ),
      M.run (set_vertical_span ch span) r log =
        M.run (get_vertical_span ch) r
          (log ++ [":" ++ ch ++ ":SCAL " ++ toString (span / 10)]))
    ∧ (∀ (r : Resp) (log : List String) (ch : String) (position : ℚ),
      M.run (set_vertical_position ch position) r log =
        M.run (get_vertical_position ch) r
          (log ++ [":" ++ ch ++ "::OFFS " ++ toString position]))
    ∧ (∀ (r : Resp) (log : List String) (ch : String) (b : Bool),
      M.run (enable_channel ch b) r log =
        M.run (is_channel_enabled ch) r
          (log ++ [":" ++ ch ++ ":DISP " ++ (if b then "1" else "0")]))
    ∧ (∀ (r : Resp) (log : List String) (ch coupling : String),
      M.run (set_coupling ch coupling) r log =
        M.run (get_coupling ch) r (log ++ [":" ++ ch ++ ":COUP " ++ coupling]))
    ∧ (∀ (r : Resp) (log : List String) (ch : String) (att : ℚ),
      M.run (set_probe_attenuation ch att) r log =
        M.run (get_probe_attenuation ch) r
          (log ++ [":" ++ ch ++ ":" ++ "PROB" ++ " " ++ toString att]))
    ∧ (∀ (r : Resp) (log : List String) (offset : ℚ),
      M.run (set_horizontal_offset hor_pos_mode offset) r log =
        M.run (get_horizontal_offset hor_pos_mode) r
          (log ++ [":TIM:POS " ++ toString offset]))
    ∧ (M.run (set_trigger_level 7) echoTestResp []).1 = .ok 42 :=
  ⟨fun _ _ _ => rfl, fun _ _ _ => rfl, fun _ _ _ _ => rfl, fun _ _ _ _ => rfl,
   fun _ _ _ _ => rfl, fun _ _ _ _ => rfl, fun _ _ _ _ => rfl, fun _ _ _ => rfl, rfl⟩

/-- Claim C8: a multiplexed call over `"all"` equals the call over the
explicit list of registered main channels (auxiliary names never enter
the expansion: the result depends only on the main-channel ids); the
keyed result set is order-independent (stable under permuting the
explicit list, up to permutation of keyed pairs); on a device with main
channels 1, 2, 3 the `"all"` call yields exactly the keyed results of
the explicit `[1, 2, 3]` call. -/
theorem muxchannel_all_eq_explicit :
    (∀ (α : Type) (reg : ChannelRegistry) (op : Int → α),
      muxcall reg op ChannelArg.all = muxcall reg op (ChannelArg.explicitList reg.mains))
    ∧ (∀ (α : Type) (r₁ r₂ : ChannelRegistry) (op : Int → α),
      r₁.mains = r₂.mains →
        muxcall r₁ op ChannelArg.all = muxcall r₂ op ChannelArg.all)
    ∧ (∀ (α : Type) (reg : ChannelRegistry) (op : Int → α) (l : List Int),
      l.Perm reg.mains →
        (muxcall reg op (ChannelArg.explicitList l)).Perm (muxcall reg op ChannelArg.all))
    ∧ (∀ (α : Type) (op : Int → α),
      muxcall ⟨[1, 2, 3], ["ext", "line", "wgen"]⟩ op ChannelArg.all
        = [(1, op 1), (2, op 2), (3, op 3)]) := by
  refine ⟨fun _ _ _ => rfl, fun α r₁ r₂ op h => ?_, fun α reg op l h => ?_, fun _ _ => rfl⟩
  · simp [muxcall, all_channels_handler, h]
  · exact h.map (fun c => (c, op c))

theorem muxchannel_all_eq_explicit_witness :
    (muxcall ⟨[1, 2, 3], ["ext", "line", "wgen"]⟩ (fun c => c * 10)
        (ChannelArg.explicitList [3, 1, 2])).Perm
      (muxcall ⟨[1, 2, 3], ["ext", "line", "wgen"]⟩ (fun c => c * 10) ChannelArg.all)
    ∧ muxcall ⟨[1, 2, 3], ["ext", "line", "wgen"]⟩ (fun c : Int => c * 10) ChannelArg.all
        = muxcall ⟨[1, 2, 3], ["other"]⟩ (fun c => c * 10) ChannelArg.all :=
  ⟨muxchannel_all_eq_explicit.2.2.1 Int ⟨[1, 2, 3], ["ext", "line", "wgen"]⟩
      (fun c => c * 10) [3, 1, 2] (by decide),
   muxchannel_all_eq_explicit.2.1 Int ⟨[1, 2, 3], ["ext", "line", "wgen"]⟩
      ⟨[1, 2, 3], ["other"]⟩ (fun c => c * 10) rfl⟩

/-- Claim C1: scaling is the affine transform — for every preamble and
every index, `x[i] = (i - ptoff) * xincr + xzero`, and `y[i]` is the
raw element itself for the ASCII format (no further scaling, the
elements being the already-parsed floats) or `(raw[i] - yoff) * ymult +
yzero` for binary; and on the synthetic binary preamble with samples
`[100, 150, 200]` (yMultiplier 0.02, yZero 0, yOffset 128, xIncrement
2e-9) the result is exactly y = [-0.56, 0.44, 1.44] against
x = [0, 2e-9, 4e-9]. -/
theorem scale_data_affine :
    (∀ (w : Wfmpre) (data : List ℚ) (i : Nat), i < data.length →
      (_scale_data data w).getD i (0, 0) =
        (((i : ℚ) - (w.ptoff : ℚ)) * w.xincr + w.xzero,
         if w.fmt.is_ascii then data.getD i 0
         else (data.getD i 0 - w.yoff) * w.ymult + w.yzero))
    ∧ _scale_data [100, 150, 200] preC1 =
        [(0, -56 / 100), (1 / 500000000, 44 / 100), (1 / 250000000, 144 / 100)] := by
  constructor
  · intro w data i hi
    have hd : data[i]? = some data[i] := List.getElem?_eq_getElem hi
    have hx : ((List.range data.length).map
        (fun j : ℕ => ((j : ℚ) - (w.ptoff : ℚ)) * w.xincr + w.xzero))[i]? =
          some (((i : ℚ) - (w.ptoff : ℚ)) * w.xincr + w.xzero) := by
      rw [List.getElem?_map, List.getElem?_range hi, Option.map_some']
    cases hA : w.fmt.is_ascii
    · have hy : (data.map (fun d => (d - w.yoff) * w.ymult + w.yzero))[i]? =
          some ((data[i] - w.yoff) * w.ymult + w.yzero) := by
        rw [List.getElem?_map, hd, Option.map_some']
      simp only [_scale_data, hA, Bool.false_eq_true, if_false,
        List.getD_eq_getElem?_getD, List.zip_eq_zipWith, List.getElem?_zipWith,
        hx, hy, hd, Option.getD_some]
    · simp only [_scale_data, hA, if_true, List.getD_eq_getElem?_getD,
        List.zip_eq_zipWith, List.getElem?_zipWith, hx, hd, Option.getD_some]
  · have hs : ¬ ("i" = "ascii") := by decide
    norm_num [_scale_data, preC1, DataFormat.is_ascii, List.range_succ, hs,
      List.zip_cons_cons]

theorem scale_data_affine_witness :
    (0 : Nat) < 3
    ∧ (_scale_data [100, 150, 200] preC1).getD 0 (0, 0) = (0, -14 / 25) :=
  ⟨by norm_num, by
    have h := scale_data_affine.1 preC1 [100, 150, 200] 0 (by norm_num)
    have hs : ¬ ("i" = "ascii") := by decide
    rw [h]; norm_num [preC1, DataFormat.is_ascii, hs]⟩

/-- Run of `_read_sweep_fast` with a supplied preamble: select, issue
the data query, read per the preamble format, then either scale or
raise on a length mismatch. -/
theorem read_sweep_fast_run (ch : String) (w : Wfmpre) (r : Resp)
    (log : List String) :
    M.run (_read_sweep_fast ch (some w)) r log =
      (let log₂ := log ++ [":WAV:SOUR " ++ ch] ++ ["WAV:DATA?"]
       let trace := if w.fmt.is_ascii then r.readRaw log₂ else r.readBin log₂
       ((if (trace.length : Int) = w.pts then .ok (_scale_data trace w)
         else .error (.dataLengthMismatch trace.length w.pts)), log₂)) := by
  cases hA : w.fmt.is_ascii <;>
    simp [_read_sweep_fast, hA, ne_eq, ite_not] <;>
    split <;> rfl

/-- Claim C4: a single-channel sweep read with a supplied preamble is
fully characterized by the length guard — the scaled waveform is
returned exactly when the decoded length equals the preamble point
count, and otherwise the error carrying both lengths (received and
declared) is raised; scaling preserves length, so the returned sweep is
never a truncated or padded waveform; in particular a preamble
declaring 1000 points against 900 decoded elements raises the error
reporting 900 and 1000. -/
theorem read_sweep_fast_length_guard :
    (∀ (ch : String) (w : Wfmpre) (r : Resp) (log : List String),
      M.run (_read_sweep_fast ch (some w)) r log =
        (let log₂ := log ++ [":WAV:SOUR " ++ ch] ++ ["WAV:DATA?"]
         let trace := if w.fmt.is_ascii then r.readRaw log₂ else r.readBin log₂
         ((if (trace.length : Int) = w.pts then .ok (_scale_data trace w)
           else .error (.dataLengthMismatch trace.length w.pts)), log₂)))
    ∧ (∀ (data : List ℚ) (w : Wfmpre), (_scale_data data w).length = data.length)
    ∧ (M.run (_read_sweep_fast "CHAN1" (some preC4)) resp900 []).1 =
        .error (.dataLengthMismatch 900 1000) := by
  refine ⟨read_sweep_fast_run, fun data w => ?_, ?_⟩
  · cases hA : w.fmt.is_ascii <;>
      simp [_scale_data, hA, List.length_zip, List.length_map, List.length_range,
        min_self]
  · rw [read_sweep_fast_run]
    have hs : ("i" == "ascii") = false := by decide
    simp only [preC4, resp900, constResp, DataFormat.is_ascii, hs, Bool.false_eq_true,
      if_false, List.length_replicate]
    norm_num

/-- Claim C5: for every descriptor resolving to a binary format whose
kind is not a signed/unsigned integer or whose size is not 1 or 2
bytes, `set_data_format` raises the `ValueError` and the interaction
log is exactly the incoming log — no command is written (and no query
issued), so the device state is untouched by the failed call. -/
theorem set_data_format_rejects_unsupported
    (desc : String) (fmt : DataFormat) (r : Resp) (log : List String)
    (h1 : DataFormat.from_desc (if desc = "default" then default_data_fmt else desc)
      = .ok fmt)
    (h2 : fmt.is_ascii = false)
    (h3 : pyInStr fmt.kind "iu" = false
      ∨ (pyEq fmt.size (.pint 1) || pyEq fmt.size (.pint 2)) = false) :
    M.run (set_data_format desc) r log =
      (.error (.valueError fmt.size fmt.kind fmt.byteorder), log) := by
  rcases h3 with h3 | h3
  · simp [set_data_format, h1, h2, h3]
  · have h4 := Bool.or_eq_false_iff.mp h3
    simp [set_data_format, h1, h2, h4.1, h4.2]

theorem set_data_format_rejects_unsupported_witness :
    M.run (set_data_format "<f8") constResp [] =
      (.error (.valueError (.pint 8) "f" (.pstr "<")), []) :=
  set_data_format_rejects_unsupported "<f8" ⟨.pint 8, "f", .pstr "<"⟩ constResp []
    rfl (by decide) (.inl (by decide))

/-- Claim C6, code evaluation at the failing input: requesting the
1-byte signed format `"<i1"` (`from_desc` gives integer size 1) makes
`set_data_format` write `:WAV:FORM WORD` — the 2-byte format — and
never `:WAV:FORM BYTE`, because the source compares the integer size
against the string `"1"`; the call then returns the re-queried
format. -/
theorem set_data_format_byte_size_bug :
    DataFormat.from_desc "<i1" = .ok ⟨.pint 1, "i", .pstr "<"⟩
    ∧ M.run (set_data_format "<i1") constResp [] =
        (.ok ⟨.pint 1, "i", .pstr "<"⟩,
         [":WAV:UNS 0", ":WAV:FORM WORD", ":WAV:BYT MSBF",
          ":WAV:FORM?", "WAV:UNS?", ":WAV:BYT?"])
    ∧ ":WAV:FORM BYTE" ∉
        [":WAV:UNS 0", ":WAV:FORM WORD", ":WAV:BYT MSBF",
         ":WAV:FORM?", "WAV:UNS?", ":WAV:BYT?"] :=
  ⟨rfl, rfl, by decide⟩

/-- Claim C2: on any well-formed 10-field reply the preamble parser
succeeds, deterministically assigning fields by fixed position — field
0 through the byte/word/reserved/ascii table into `get_data_format`,
field 1 through the normal/peak/average/high-res table, then point
count, average count, x-increment (field 4), x-zero (field 5), point
offset, y-multiplier, y-zero, y-offset; and on the split of the
literal `"1;0;1000;1;1e-6;0;-500;0.01;0;0"` the result has a
WORD-derived format (element size 2), type NORM, pts 1000,
xincr 1e-6, xzero 0, ptoff -500, ymult 0.01, yzero 0, yoff 0. -/
theorem build_wfmpre_fixed_fields :
    (∀ (data : List String) (r : Resp) (log : List String)
       (f t pts cnt po : Int) (xi xz ym yz yo : ℚ) (fname tname : String),
      10 ≤ data.length →
      pyInt (dget data 0) = some f →
      pyIndex fmt_table f = some fname →
      pyInt (dget data 1) = some t →
      pyIndex type_table t = some tname →
      pyInt (dget data 2) = some pts →
      pyInt (dget data 3) = some cnt →
      pyFloat (dget data 4) = some xi →
      pyFloat (dget data 5) = some xz →
      pyInt (dget data 6) = some po →
      pyFloat (dget data 7) = some ym →
      pyFloat (dget data 8) = some yz →
      pyFloat (dget data 9) = some yo →
      M.run (_build_wfmpre data) r log =
        ((M.run (get_data_format (some fname)) r log).1.map
           (fun fmtv => Wfmpre.mk fmtv tname pts cnt xz xi po ym yz yo),
         (M.run (get_data_format (some fname)) r log).2))
    ∧ splitFields "1;0;1000;1;1e-6;0;-500;0.01;0;0" = preambleFields
    ∧ (∀ (r : Resp) (log : List String), ∃ kd bd,
        M.run (_build_wfmpre preambleFields) r log =
          (.ok (Wfmpre.mk ⟨.pint 2, kd, .pstr bd⟩ "NORM" 1000 1 0 (1 / 1000000)
             (-500) (1 / 100) 0 0),
           log ++ ["WAV:UNS?"] ++ [":WAV:BYT?"])) := by
  refine ⟨?_, rfl, ?_⟩
  · intro data r log f t pts cnt po xi xz ym yz yo fname tname
      h10 h0 h0i h1 h1i h2 h3 h4 h5 h6 h7 h8 h9
    have h10' : ¬ (data.length < 10) := by omega
    rcases hgd : M.run (get_data_format (some fname)) r log with ⟨fres, log₂⟩
    simp only [_build_wfmpre, M.run_ite, h10', if_false, M.run_bind, M.run_liftOpt,
      h0, h0i, h1, h1i, h2, h3, h4, h5, h6, h7, h8, h9, hgd, M.run_pure]
    cases fres <;> simp [Except.map]
  · intro r log
    have hx : (1 : ℚ) / 1000000 = mkRat 1 1000000 := by
      norm_num [Rat.mkRat_eq_div]
    have hy : (1 : ℚ) / 100 = mkRat 1 100 := by
      norm_num [Rat.mkRat_eq_div]
    refine ⟨if r.askB (log ++ ["WAV:UNS?"]) "WAV:UNS?" then "u" else "i",
      if upperStr (r.askS (log ++ ["WAV:UNS?"] ++ [":WAV:BYT?"]) ":WAV:BYT?") = "LSBF"
        then ">" else "<", ?_⟩
    rw [hx, hy]
    exact rfl

theorem build_wfmpre_fixed_fields_witness :
    M.run (_build_wfmpre preambleFields) constResp [] =
      ((M.run (get_data_format (some "WORD")) constResp []).1.map
         (fun fmtv => Wfmpre.mk fmtv "NORM" 1000 1 0 (mkRat 1 1000000) (-500)
           (mkRat 1 100) 0 0),
       (M.run (get_data_format (some "WORD")) constResp []).2) :=
  build_wfmpre_fixed_fields.1 preambleFields constResp [] 1 0 1000 1 (-500)
    (mkRat 1 1000000) 0 (mkRat 1 100) 0 0 "WORD" "NORM"
    (by decide) rfl rfl rfl rfl rfl rfl rfl rfl rfl rfl rfl rfl

/-- Claim C7, counterexample: the preamble parser is not pure — on the
same binary-format reply fields, two device states differing only in
the `WAV:UNS?` answer yield different preambles (signed vs unsigned
format), and the parser extends the interaction log (it issues the
format queries). -/
theorem build_wfmpre_performs_queries :
    ∃ w₁ w₂ : Wfmpre,
      (M.run (_build_wfmpre preambleFields) respUns []).1 = .ok w₁
      ∧ (M.run (_build_wfmpre preambleFields) constResp []).1 = .ok w₂
      ∧ w₁ ≠ w₂
      ∧ (M.run (_build_wfmpre preambleFields) constResp []).2 ≠ ([] : List String) :=
  ⟨_, _, rfl, rfl, by decide, by decide⟩

/-- Claim C7, amended: the preamble parser is pure given the device
format state — and unconditionally pure exactly on replies whose
format code denotes ASCII: for any reply with format code 3, the run
issues no command or query (the log is returned unchanged) and the
result is the same for any two device oracles. -/
theorem build_wfmpre_ascii_pure :
    ∀ (data : List String) (r₁ r₂ : Resp) (log : List String),
      pyInt (dget data 0) = some 3 →
      M.run (_build_wfmpre data) r₁ log = M.run (_build_wfmpre data) r₂ log
      ∧ (M.run (_build_wfmpre data) r₁ log).2 = log := by
  intro data r₁ r₂ log h0
  by_cases h10 : data.length < 10
  · constructor <;> simp [_build_wfmpre, M.run, thr, h10]
  · have hidx : pyIndex fmt_table 3 = some "ASCII" := rfl
    constructor <;>
      simp only [_build_wfmpre, M.run_ite, h10, if_false, M.run_bind_liftOpt, h0,
        hidx, M.run_bind_gdf_ascii, M.run_pure] <;>
      first
        | rfl
        | ((repeat' split) <;> rfl)

theorem build_wfmpre_ascii_pure_witness :
    M.run (_build_wfmpre asciiFields) respUns [] =
      M.run (_build_wfmpre asciiFields) constResp []
    ∧ (M.run (_build_wfmpre asciiFields) respUns []).2 = ([] : List String) :=
  build_wfmpre_ascii_pure asciiFields respUns constResp [] rfl
